import Mathlib

/-!
Verification of `sample/aerframe_budget_geofence.py`.

The script polls an external location API once an hour, keeps the first
present location it sees as a baseline, and logs when the four cellular
identity fields (mcc, mnc, lac, cellId) of a later reading differ from
the baseline.

The embedding models a Python location value as either `None` or a
dictionary from string keys to integers; subscripting a missing key or
`None` is a raised error, mirrored by `Except`.  Log emission is modelled
by accumulating structured `(level, message)` entries in order.
-/

/-- Severity levels of the script's logger calls. -/
inductive Level where
  | debug
  | info
  | warn
  | error
deriving DecidableEq

/-- One emitted log record: a severity and the formatted message. -/
structure LogEntry where
  level : Level
  msg : String
deriving DecidableEq

/-- Errors a dictionary subscript can raise: `KeyError` for a missing key,
`TypeError` for subscripting `None`. -/
inductive PyErr where
  | keyError
  | typeError
deriving DecidableEq

/-- A Python value as the script uses it: `None`, or a dict mapping
string keys to integers (the location records returned by the API). -/
inductive PyVal where
  | none
  | dict (fields : List (String × Int))
deriving DecidableEq

/-- Python subscripting `v[k]`: raises `TypeError` on `None` and
`KeyError` on a dict that is missing the key. -/
def PyVal.getItem : PyVal → String → Except PyErr Int
  | PyVal.none, _ => Except.error PyErr.typeError
  | PyVal.dict fs, k =>
    match fs.lookup k with
    | Option.some v => Except.ok v
    | Option.none => Except.error PyErr.keyError

/-- Whether subscripting with key `k` would succeed. -/
def PyVal.hasKey (v : PyVal) (k : String) : Bool :=
  match v.getItem k with
  | Except.ok _ => true
  | Except.error _ => false

/-- A plain rendering of a value, standing in for Python's `repr` inside
f-strings; only the log levels matter to the properties proved below. -/
def PyVal.render : PyVal → String
  | PyVal.none => "None"
  | PyVal.dict fs => toString fs

/-- `is_location_present(loc)`: `False` when `loc['mcc'] == 0`, `True`
otherwise; raises if `loc` has no `mcc` key. -/
def is_location_present (loc : PyVal) : Except PyErr Bool :=
  match loc.getItem "mcc" with
  | Except.error e => Except.error e
  | Except.ok m => if m = 0 then Except.ok false else Except.ok true

/-- The tuple `('mcc', 'mnc', 'lac', 'cellId')` iterated by
`location_changed`. -/
def locationAttributes : List String := ["mcc", "mnc", "lac", "cellId"]

/-- The `for attribute in (...)` loop body of `location_changed`: reads the
attribute from both records (either read may raise), logs a warning naming
the attribute and both values on a mismatch, and accumulates the result
flag.  Warnings logged before a raised error are kept, as in Python. -/
def changeLoop (new_loc prev_loc : PyVal) :
    List String → List LogEntry → Bool → List LogEntry × Except PyErr Bool
  | [], logs, result => (logs, Except.ok result)
  | attr :: rest, logs, result =>
    match new_loc.getItem attr with
    | Except.error e => (logs, Except.error e)
    | Except.ok n =>
      match prev_loc.getItem attr with
      | Except.error e => (logs, Except.error e)
      | Except.ok p =>
        if n ≠ p then
          changeLoop new_loc prev_loc rest
            (logs ++ [⟨Level.warn, s!"Device has moved from {attr} {p} to {n}"⟩]) true
        else
          changeLoop new_loc prev_loc rest logs result

/-- `location_changed(new_loc, prev_loc)`: `False` immediately when
`prev_loc is None`; otherwise compares the four identity attributes in
order, returning whether any differed, together with the warnings logged
along the way (or the raised error). -/
def location_changed (new_loc prev_loc : PyVal) : List LogEntry × Except PyErr Bool :=
  if prev_loc = PyVal.none then ([], Except.ok false)
  else changeLoop new_loc prev_loc locationAttributes [] false

instance : DecidableEq (Except PyErr Bool) := fun a b =>
  match a, b with
  | Except.ok x, Except.ok y =>
    if h : x = y then isTrue (by rw [h]) else isFalse (by intro hc; cases hc; exact h rfl)
  | Except.error x, Except.error y =>
    if h : x = y then isTrue (by rw [h]) else isFalse (by intro hc; cases hc; exact h rfl)
  | Except.ok _, Except.error _ => isFalse (by intro hc; cases hc)
  | Except.error _, Except.ok _ => isFalse (by intro hc; cases hc)

/-- `LOCATION_REQUEST_PERIOD_SECONDS = 60*60`: the fixed polling period. -/
def LOCATION_REQUEST_PERIOD_SECONDS : Nat := 60 * 60

/-- The delay of the very first `scheduler.enter(1, 1, ...)` call in
`begin_loop`. -/
def begin_loop_initialDelaySeconds : Nat := 1

/-- The outcome of `aerframesdk.get_location(...)` inside the `try` block:
a returned value, a raised `ApiException`, or any other raised
`BaseException`. -/
inductive FetchOutcome where
  | ok (loc : PyVal)
  | apiError
  | otherError
deriving DecidableEq

/-- `logger.error` entry of the `except ApiException` handler. -/
def apiErrorEntry : LogEntry := ⟨Level.error, "There was a problem calling the API"⟩

/-- `logger.error` entry of the `except BaseException` handler. -/
def otherErrorEntry : LogEntry := ⟨Level.error, "Something else went horribly wrong"⟩

/-- `logger.warn` entry emitted when `location_changed` returned true. -/
def movedEntry : LogEntry := ⟨Level.warn, "The device moved!"⟩

/-- `logger.debug` entry emitted right after a successful fetch. -/
def latestEntry (new_location : PyVal) : LogEntry :=
  ⟨Level.debug, "Latest location = " ++ new_location.render⟩

/-- `logger.info` entry emitted when the baseline is first adopted. -/
def adoptEntry (original_location : PyVal) : LogEntry :=
  ⟨Level.info,
    "The original \"stay-put\" location of the device is " ++ original_location.render⟩

/-- The rest of the tick body once the fetched location proved present:
adopts it as the baseline when none was set yet (logging at info), then
runs `location_changed` against the (possibly just-adopted) baseline,
logging the "moved" warning when it returned true and falling into the
`except BaseException` handler when it raised.  An assignment to
`original_location` made before such an error persists, as in Python. -/
def tickPresent (new_location original_location : PyVal) : PyVal × List LogEntry :=
  match location_changed new_location
      (if original_location = PyVal.none then new_location else original_location) with
  | (fieldLogs, Except.error _) =>
    ((if original_location = PyVal.none then new_location else original_location),
      latestEntry new_location ::
        ((if original_location = PyVal.none then [adoptEntry new_location] else []) ++
          fieldLogs ++ [otherErrorEntry]))
  | (fieldLogs, Except.ok changed) =>
    ((if original_location = PyVal.none then new_location else original_location),
      latestEntry new_location ::
        ((if original_location = PyVal.none then [adoptEntry new_location] else []) ++
          fieldLogs ++ (if changed then [movedEntry] else [])))

/-- The `try ... except` body of one invocation of
`get_location_and_make_noise`: given the fetch outcome and the incoming
`original_location`, yields the `original_location` in scope after the
block (the baseline passed on) and the log entries emitted, in order.
A `KeyError` raised by `is_location_present` or `location_changed` falls
into the `except BaseException` handler. -/
def tickBody : FetchOutcome → PyVal → PyVal × List LogEntry
  | FetchOutcome.apiError, original_location => (original_location, [apiErrorEntry])
  | FetchOutcome.otherError, original_location => (original_location, [otherErrorEntry])
  | FetchOutcome.ok new_location, original_location =>
    match is_location_present new_location with
    | Except.error _ => (original_location, [latestEntry new_location, otherErrorEntry])
    | Except.ok false => (original_location, [latestEntry new_location])
    | Except.ok true => tickPresent new_location original_location

/-- The observable result of one invocation: the baseline and delay passed
to `scheduler.enter` for the next invocation, and the logs emitted. -/
structure TickResult where
  baseline : PyVal
  logs : List LogEntry
  nextDelaySeconds : Nat
deriving DecidableEq

/-- `get_location_and_make_noise(...)`: runs the guarded body, then
unconditionally re-schedules itself after
`LOCATION_REQUEST_PERIOD_SECONDS`, passing the current
`original_location` along. -/
def get_location_and_make_noise (fetch : FetchOutcome) (original_location : PyVal) :
    TickResult :=
  { baseline := (tickBody fetch original_location).fst
    logs := (tickBody fetch original_location).snd
    nextDelaySeconds := LOCATION_REQUEST_PERIOD_SECONDS }

/-- Whether an exception is raised (and caught) during the tick body:
the fetch itself fails, or `is_location_present` raises, or
`location_changed` raises. -/
def tickRaised (fetch : FetchOutcome) (original_location : PyVal) : Bool :=
  match fetch with
  | FetchOutcome.apiError => true
  | FetchOutcome.otherError => true
  | FetchOutcome.ok new_location =>
    match is_location_present new_location with
    | Except.error _ => true
    | Except.ok false => false
    | Except.ok true =>
      let original2 :=
        if original_location = PyVal.none then new_location else original_location
      match (location_changed new_location original2).snd with
      | Except.error _ => true
      | Except.ok _ => false

/-- Start times (in seconds after process start) of successive invocations
under `begin_loop`, idealising instantaneous tick bodies: the first runs
after the one-second initial delay, each next one a fixed period later.
Totality in the tick index reflects the absence of a termination
condition. -/
def tickStartTime : Nat → Nat
  | 0 => begin_loop_initialDelaySeconds
  | n + 1 => tickStartTime n + LOCATION_REQUEST_PERIOD_SECONDS

/-- Claim C5: `location_changed(L, None)` returns false for every value
`L`, whatever its shape, emitting no log (shown by the returned log list
being empty and by the result not depending on `L` at all). -/
theorem location_changed_none_prev (L : PyVal) :
    location_changed L PyVal.none = ([], Except.ok false) := by
  simp [location_changed]

/-- Claim C4: on a record whose `mcc` lookup succeeds with value `m`,
`is_location_present` returns false exactly when `m = 0` and true for
every other `m`. -/
theorem is_location_present_iff_mcc_zero (loc : PyVal) (m : Int)
    (h : loc.getItem "mcc" = Except.ok m) :
    (is_location_present loc = Except.ok false ↔ m = 0) ∧
    (is_location_present loc = Except.ok true ↔ m ≠ 0) := by
  by_cases hm : m = 0 <;> simp [is_location_present, h, hm]

/-- Witness for `is_location_present_iff_mcc_zero` at `mcc = 310`. -/
theorem is_location_present_iff_mcc_zero_witness :
    (is_location_present (PyVal.dict [("mcc", 310)]) = Except.ok false ↔ (310 : Int) = 0) ∧
    (is_location_present (PyVal.dict [("mcc", 310)]) = Except.ok true ↔ (310 : Int) ≠ 0) :=
  is_location_present_iff_mcc_zero (PyVal.dict [("mcc", 310)]) 310 rfl

/-- Claim C6: `location_changed(L, L)` returns false (with no warnings)
for every present record `L` carrying the four identity fields. -/
theorem location_changed_refl (L : PyVal) (a b c d : Int)
    (h1 : L.getItem "mcc" = Except.ok a) (ha : a ≠ 0)
    (h2 : L.getItem "mnc" = Except.ok b)
    (h3 : L.getItem "lac" = Except.ok c)
    (h4 : L.getItem "cellId" = Except.ok d) :
    location_changed L L = ([], Except.ok false) := by
  have hL : L ≠ PyVal.none := by
    intro h
    rw [h] at h1
    simp [PyVal.getItem] at h1
  simp [location_changed, hL, locationAttributes, changeLoop, h1, h2, h3, h4]

/-- Witness for `location_changed_refl` on a concrete full record. -/
theorem location_changed_refl_witness :
    location_changed (PyVal.dict [("mcc", 310), ("mnc", 410), ("lac", 7), ("cellId", 99)])
      (PyVal.dict [("mcc", 310), ("mnc", 410), ("lac", 7), ("cellId", 99)])
      = ([], Except.ok false) :=
  location_changed_refl (PyVal.dict [("mcc", 310), ("mnc", 410), ("lac", 7), ("cellId", 99)])
    310 410 7 99 rfl (by decide) rfl rfl rfl

/-- Claim C1: with `prev_loc` not `None` and both records carrying the
four identity fields, `location_changed` returns true exactly when at
least one of the four fields differs (hence in particular when exactly
one differs), and false exactly when all four agree. -/
theorem location_changed_iff_fields_differ (new_loc prev_loc : PyVal)
    (a1 a2 a3 a4 b1 b2 b3 b4 : Int)
    (hprev : prev_loc ≠ PyVal.none)
    (hn1 : new_loc.getItem "mcc" = Except.ok a1)
    (hn2 : new_loc.getItem "mnc" = Except.ok a2)
    (hn3 : new_loc.getItem "lac" = Except.ok a3)
    (hn4 : new_loc.getItem "cellId" = Except.ok a4)
    (hp1 : prev_loc.getItem "mcc" = Except.ok b1)
    (hp2 : prev_loc.getItem "mnc" = Except.ok b2)
    (hp3 : prev_loc.getItem "lac" = Except.ok b3)
    (hp4 : prev_loc.getItem "cellId" = Except.ok b4) :
    ((location_changed new_loc prev_loc).snd = Except.ok true ↔
      (a1 ≠ b1 ∨ a2 ≠ b2 ∨ a3 ≠ b3 ∨ a4 ≠ b4)) ∧
    ((location_changed new_loc prev_loc).snd = Except.ok false ↔
      (a1 = b1 ∧ a2 = b2 ∧ a3 = b3 ∧ a4 = b4)) := by
  unfold location_changed
  rw [if_neg hprev]
  by_cases e1 : a1 = b1 <;> by_cases e2 : a2 = b2 <;> by_cases e3 : a3 = b3 <;>
    by_cases e4 : a4 = b4 <;>
      simp [locationAttributes, changeLoop, hn1, hn2, hn3, hn4, hp1, hp2, hp3, hp4,
        e1, e2, e3, e4]

/-- The loop body of `location_changed` run with the same record on both
sides never logs and never flips the result flag: either it completes with
the accumulator unchanged or a lookup raises. -/
theorem changeLoop_self (L : PyVal) :
    ∀ (l : List String) (logs : List LogEntry) (res : Bool),
      (changeLoop L L l logs res).fst = logs ∧
      ((changeLoop L L l logs res).snd = Except.ok res ∨
        ∃ e, (changeLoop L L l logs res).snd = Except.error e) := by
  intro l
  induction l with
  | nil => intro logs res; exact ⟨rfl, Or.inl rfl⟩
  | cons a t ih =>
    intro logs res
    cases hg : L.getItem a with
    | error e =>
      exact ⟨by simp [changeLoop, hg], Or.inr ⟨e, by simp [changeLoop, hg]⟩⟩
    | ok n =>
      simpa [changeLoop, hg] using ih logs res

/-- `location_changed` on the same non-`None` record twice logs nothing
and either returns false or raises (when a field is missing). -/
theorem location_changed_self (A : PyVal) (hA : A ≠ PyVal.none) :
    (location_changed A A).fst = [] ∧
    ((location_changed A A).snd = Except.ok false ∨
      ∃ e, (location_changed A A).snd = Except.error e) := by
  unfold location_changed
  rw [if_neg hA]
  exact changeLoop_self A locationAttributes [] false

/-- The baseline coming out of `tickPresent` is the incoming one, or the
new location exactly when none was set. -/
theorem tickPresent_fst (new_location orig : PyVal) :
    (tickPresent new_location orig).fst =
      if orig = PyVal.none then new_location else orig := by
  unfold tickPresent
  split <;> rfl

/-- On a present re-reading of the very same record, `tickPresent` keeps
it as the baseline and logs exactly the debug and adoption entries,
followed at most by the caught-error entry (when a field is missing). -/
theorem tickPresent_adopt (A : PyVal) (hA : A ≠ PyVal.none) :
    tickPresent A PyVal.none = (A, [latestEntry A, adoptEntry A]) ∨
    tickPresent A PyVal.none = (A, [latestEntry A, adoptEntry A, otherErrorEntry]) := by
  have hself := location_changed_self A hA
  rcases hcl : location_changed A A with ⟨fieldLogs, r⟩
  rw [hcl] at hself
  have hfl : fieldLogs = [] := hself.1
  have hr : r = Except.ok false ∨ ∃ e, r = Except.error e := hself.2
  subst hfl
  unfold tickPresent
  simp only [eq_self_iff_true, if_true]
  rw [hcl]
  rcases hr with rfl | ⟨e, rfl⟩
  · left; rfl
  · right; rfl

/-- After the tick body, the `original_location` variable is unchanged
whenever it came in non-`None`. -/
theorem tickBody_fst_of_ne_none (fetch : FetchOutcome) (orig : PyVal)
    (h : orig ≠ PyVal.none) : (tickBody fetch orig).fst = orig := by
  cases fetch with
  | apiError => rfl
  | otherError => rfl
  | ok new_location =>
    cases hp : is_location_present new_location with
    | error e => simp [tickBody, hp]
    | ok b =>
      cases b with
      | false => simp [tickBody, hp]
      | true =>
        have hb : tickBody (FetchOutcome.ok new_location) orig
            = tickPresent new_location orig := by
          simp [tickBody, hp]
        rw [hb, tickPresent_fst, if_neg h]

/-- A tick that starts with no baseline and fetches a present location
ends with that location as the baseline. -/
theorem tickBody_fst_adopt (new_location : PyVal)
    (hp : is_location_present new_location = Except.ok true) :
    (tickBody (FetchOutcome.ok new_location) PyVal.none).fst = new_location := by
  have hb : tickBody (FetchOutcome.ok new_location) PyVal.none
      = tickPresent new_location PyVal.none := by
    simp [tickBody, hp]
  rw [hb, tickPresent_fst, if_pos rfl]

/-- Claim C2: the baseline is immutable once set — a non-`None` incoming
baseline is passed to the next scheduled invocation unchanged, whatever
the fetch returned and whether or not an error was raised; and the only
way the outgoing baseline can differ from the incoming one is that the
incoming one was `None` and a present fetched location was adopted. -/
theorem baseline_set_once (fetch : FetchOutcome) (orig : PyVal) :
    (orig ≠ PyVal.none → (get_location_and_make_noise fetch orig).baseline = orig) ∧
    ((get_location_and_make_noise fetch orig).baseline ≠ orig →
      orig = PyVal.none ∧ ∃ new_location, fetch = FetchOutcome.ok new_location ∧
        is_location_present new_location = Except.ok true ∧
        (get_location_and_make_noise fetch orig).baseline = new_location) := by
  constructor
  · intro h
    exact tickBody_fst_of_ne_none fetch orig h
  · intro hne
    by_cases h : orig = PyVal.none
    · subst h
      refine ⟨rfl, ?_⟩
      cases fetch with
      | apiError => exact absurd rfl hne
      | otherError => exact absurd rfl hne
      | ok new_location =>
        cases hp : is_location_present new_location with
        | error e =>
          exact absurd (by simp [get_location_and_make_noise, tickBody, hp]) hne
        | ok b =>
          cases b with
          | false =>
            exact absurd (by simp [get_location_and_make_noise, tickBody, hp]) hne
          | true =>
            exact ⟨new_location, rfl, hp, tickBody_fst_adopt new_location hp⟩
    · exact absurd (tickBody_fst_of_ne_none fetch orig h) hne

/-- Witness for `baseline_set_once`: a set baseline survives an API
error tick. -/
theorem baseline_set_once_witness :
    (get_location_and_make_noise FetchOutcome.apiError
      (PyVal.dict [("mcc", 310), ("mnc", 410), ("lac", 7), ("cellId", 99)])).baseline
      = PyVal.dict [("mcc", 310), ("mnc", 410), ("lac", 7), ("cellId", 99)] :=
  (baseline_set_once FetchOutcome.apiError
    (PyVal.dict [("mcc", 310), ("mnc", 410), ("lac", 7), ("cellId", 99)])).1 (by decide)

/-- Claim C7: an absent fetched location (zero `mcc`) is inert — the
baseline stays exactly what it was, no "moved" warning is emitted, and
every log entry of the tick is at debug level. -/
theorem absent_location_inert (fetch : FetchOutcome) (new_location orig : PyVal)
    (hf : fetch = FetchOutcome.ok new_location)
    (hp : is_location_present new_location = Except.ok false) :
    (get_location_and_make_noise fetch orig).baseline = orig ∧
    movedEntry ∉ (get_location_and_make_noise fetch orig).logs ∧
    ∀ entry ∈ (get_location_and_make_noise fetch orig).logs, entry.level = Level.debug := by
  subst hf
  have hlogs : (get_location_and_make_noise (FetchOutcome.ok new_location) orig).logs
      = [latestEntry new_location] := by
    simp [get_location_and_make_noise, tickBody, hp]
  refine ⟨by simp [get_location_and_make_noise, tickBody, hp], ?_, ?_⟩
  · rw [hlogs]
    simp [movedEntry, latestEntry]
  · rw [hlogs]
    intro entry he
    simp at he
    subst he
    rfl

/-- Witness for `absent_location_inert` on the absent-location sentinel. -/
theorem absent_location_inert_witness :
    (get_location_and_make_noise (FetchOutcome.ok (PyVal.dict [("mcc", 0)]))
      PyVal.none).baseline = PyVal.none :=
  (absent_location_inert (FetchOutcome.ok (PyVal.dict [("mcc", 0)]))
    (PyVal.dict [("mcc", 0)]) PyVal.none rfl rfl).1

/-- Claim C8: first-reading adoption — with no baseline yet and a present
fetched location `A`, the tick adopts `A` as the baseline, logs the
adoption at info severity, emits no warning-level log, and passes `A` on
to the next invocation. -/
theorem first_reading_adoption (fetch : FetchOutcome) (A orig : PyVal)
    (horig : orig = PyVal.none)
    (hf : fetch = FetchOutcome.ok A)
    (hp : is_location_present A = Except.ok true) :
    (get_location_and_make_noise fetch orig).baseline = A ∧
    adoptEntry A ∈ (get_location_and_make_noise fetch orig).logs ∧
    (adoptEntry A).level = Level.info ∧
    ∀ entry ∈ (get_location_and_make_noise fetch orig).logs, entry.level ≠ Level.warn := by
  subst horig
  subst hf
  have hA : A ≠ PyVal.none := by
    intro h
    rw [h] at hp
    simp [is_location_present, PyVal.getItem] at hp
  have hbody : tickBody (FetchOutcome.ok A) PyVal.none = tickPresent A PyVal.none := by
    simp [tickBody, hp]
  have hbase : (get_location_and_make_noise (FetchOutcome.ok A) PyVal.none).baseline = A := by
    show (tickBody (FetchOutcome.ok A) PyVal.none).fst = A
    exact tickBody_fst_adopt A hp
  rcases tickPresent_adopt A hA with h | h <;>
  · refine ⟨hbase, ?_, rfl, ?_⟩
    · show adoptEntry A ∈ (tickBody (FetchOutcome.ok A) PyVal.none).snd
      rw [hbody, h]
      simp
    · show ∀ entry ∈ (tickBody (FetchOutcome.ok A) PyVal.none).snd,
        entry.level ≠ Level.warn
      rw [hbody, h]
      intro entry he
      simp only [List.mem_cons] at he
      rcases he with rfl | rfl | he
      · simp [latestEntry]
      · simp [adoptEntry]
      · first
          | (simp at he; subst he; simp [otherErrorEntry])
          | simp at he

/-- Witness for `first_reading_adoption` on a concrete present record. -/
theorem first_reading_adoption_witness :
    (get_location_and_make_noise
      (FetchOutcome.ok (PyVal.dict [("mcc", 310), ("mnc", 410), ("lac", 7), ("cellId", 99)]))
      PyVal.none).baseline
      = PyVal.dict [("mcc", 310), ("mnc", 410), ("lac", 7), ("cellId", 99)] :=
  (first_reading_adoption
    (FetchOutcome.ok (PyVal.dict [("mcc", 310), ("mnc", 410), ("lac", 7), ("cellId", 99)]))
    (PyVal.dict [("mcc", 310), ("mnc", 410), ("lac", 7), ("cellId", 99)])
    PyVal.none rfl rfl rfl).1

/-- When `location_changed` raises, `tickPresent` appends the
caught-error log entry after whatever was already logged. -/
theorem tickPresent_error_logs (new_location orig : PyVal)
    (fieldLogs : List LogEntry) (e : PyErr)
    (hcl : location_changed new_location
        (if orig = PyVal.none then new_location else orig)
        = (fieldLogs, Except.error e)) :
    (tickPresent new_location orig).snd =
      latestEntry new_location ::
        ((if orig = PyVal.none then [adoptEntry new_location] else []) ++
          fieldLogs ++ [otherErrorEntry]) := by
  unfold tickPresent
  rw [hcl]

/-- Claim C3 (amended): every tick schedules the next one exactly one
period later; a raised error is caught and logged at error severity; an
incoming non-`None` baseline — in particular the baseline of any tick
whose fetch itself fails — is passed on unchanged.  (When the incoming
baseline is `None` and the tick adopts a location before a later step
raises, the adopted baseline is passed on; see the counterexample.) -/
theorem crash_isolation_amended (fetch : FetchOutcome) (orig : PyVal) :
    (get_location_and_make_noise fetch orig).nextDelaySeconds
        = LOCATION_REQUEST_PERIOD_SECONDS ∧
    (tickRaised fetch orig = true →
      ∃ entry ∈ (get_location_and_make_noise fetch orig).logs,
        entry.level = Level.error) ∧
    (orig ≠ PyVal.none → (get_location_and_make_noise fetch orig).baseline = orig) ∧
    ((fetch = FetchOutcome.apiError ∨ fetch = FetchOutcome.otherError) →
      (get_location_and_make_noise fetch orig).baseline = orig) := by
  refine ⟨rfl, ?_, fun h => tickBody_fst_of_ne_none fetch orig h, ?_⟩
  · intro hr
    cases fetch with
    | apiError =>
      exact ⟨apiErrorEntry, by simp [get_location_and_make_noise, tickBody], rfl⟩
    | otherError =>
      exact ⟨otherErrorEntry, by simp [get_location_and_make_noise, tickBody], rfl⟩
    | ok new_location =>
      cases hp : is_location_present new_location with
      | error e =>
        refine ⟨otherErrorEntry, ?_, rfl⟩
        show otherErrorEntry ∈ (tickBody (FetchOutcome.ok new_location) orig).snd
        simp [tickBody, hp]
      | ok b =>
        cases b with
        | false =>
          rw [tickRaised] at hr
          simp [hp] at hr
        | true =>
          rcases hcl : location_changed new_location
              (if orig = PyVal.none then new_location else orig) with ⟨fieldLogs, r⟩
          cases r with
          | ok changed =>
            exfalso
            rw [tickRaised] at hr
            simp [hp, hcl] at hr
          | error e =>
            refine ⟨otherErrorEntry, ?_, rfl⟩
            show otherErrorEntry ∈ (tickBody (FetchOutcome.ok new_location) orig).snd
            have hb : tickBody (FetchOutcome.ok new_location) orig
                = tickPresent new_location orig := by
              simp [tickBody, hp]
            rw [hb, tickPresent_error_logs new_location orig fieldLogs e hcl]
            simp
  · rintro (rfl | rfl) <;> rfl

/-- Witness for `crash_isolation_amended`: a failed fetch leaves a set
baseline unchanged. -/
theorem crash_isolation_amended_witness :
    (get_location_and_make_noise FetchOutcome.apiError
        (PyVal.dict [("mcc", 310)])).baseline = PyVal.dict [("mcc", 310)] :=
  (crash_isolation_amended FetchOutcome.apiError
    (PyVal.dict [("mcc", 310)])).2.2.1 (by decide)

/-- Counterexample to claim C3 as stated: on a tick whose incoming
baseline is `None` and whose fetched record has a non-zero `mcc` but no
`mnc` key, the comparison raises after the baseline was already adopted,
so an error is raised and logged during the tick yet the baseline passed
to the next invocation differs from the incoming one. -/
theorem crash_isolation_counterexample :
    tickRaised (FetchOutcome.ok (PyVal.dict [("mcc", 1)])) PyVal.none = true ∧
    (∃ entry ∈ (get_location_and_make_noise
        (FetchOutcome.ok (PyVal.dict [("mcc", 1)])) PyVal.none).logs,
      entry.level = Level.error) ∧
    (get_location_and_make_noise (FetchOutcome.ok (PyVal.dict [("mcc", 1)]))
        PyVal.none).baseline ≠ PyVal.none := by
  refine ⟨rfl, ⟨otherErrorEntry, ?_, rfl⟩, by decide⟩
  show otherErrorEntry ∈ (tickBody (FetchOutcome.ok (PyVal.dict [("mcc", 1)]))
      PyVal.none).snd
  exact List.Mem.tail _ (List.Mem.tail _ (List.Mem.head _))

/-- The comparison loop raises whenever some listed attribute is missing
from either record: earlier attributes either compare fine or raise
themselves, and the loop never stops before the faulty one. -/
theorem changeLoop_missing_key (new_loc prev_loc : PyVal) :
    ∀ (l : List String) (logs : List LogEntry) (res : Bool),
      (∃ a ∈ l, new_loc.hasKey a = false ∨ prev_loc.hasKey a = false) →
      ∃ e, (changeLoop new_loc prev_loc l logs res).snd = Except.error e := by
  intro l
  induction l with
  | nil =>
    intro logs res h
    simp at h
  | cons a t ih =>
    intro logs res h
    cases hn : new_loc.getItem a with
    | error e => exact ⟨e, by simp [changeLoop, hn]⟩
    | ok n =>
      cases hp : prev_loc.getItem a with
      | error e => exact ⟨e, by simp [changeLoop, hn, hp]⟩
      | ok p =>
        have ht : ∃ b ∈ t, new_loc.hasKey b = false ∨ prev_loc.hasKey b = false := by
          rcases h with ⟨b, hb, hbad⟩
          rcases List.mem_cons.mp hb with rfl | hbt
          · exfalso
            rcases hbad with hbad | hbad <;> simp [PyVal.hasKey, hn, hp] at hbad
          · exact ⟨b, hbt, hbad⟩
        by_cases hnp : n = p
        · subst hnp
          simpa [changeLoop, hn, hp] using ih logs res ht
        · simpa [changeLoop, hn, hp, hnp] using
            ih (logs ++ [⟨Level.warn, s!"Device has moved from {a} {p} to {n}"⟩]) true ht

/-- Claim C10: with `prev_loc` not `None`, `location_changed` reads all
four identity fields of both arguments, so it raises rather than
returning a boolean as soon as `new_loc` is `None` or either argument
lacks one of the four attributes. -/
theorem location_changed_strict (new_loc prev_loc : PyVal)
    (hprev : prev_loc ≠ PyVal.none)
    (hbad : new_loc = PyVal.none ∨
      ∃ a ∈ locationAttributes,
        new_loc.hasKey a = false ∨ prev_loc.hasKey a = false) :
    ∃ e, (location_changed new_loc prev_loc).snd = Except.error e := by
  have hbad' : ∃ a ∈ locationAttributes,
      new_loc.hasKey a = false ∨ prev_loc.hasKey a = false := by
    rcases hbad with rfl | h
    · exact ⟨"mcc", by simp [locationAttributes], Or.inl rfl⟩
    · exact h
  unfold location_changed
  rw [if_neg hprev]
  exact changeLoop_missing_key new_loc prev_loc locationAttributes [] false hbad'

/-- Witness for `location_changed_strict`: a `None` new location against a
set previous location raises. -/
theorem location_changed_strict_witness :
    ∃ e, (location_changed PyVal.none
      (PyVal.dict [("mcc", 310), ("mnc", 410), ("lac", 7), ("cellId", 99)])).snd
      = Except.error e :=
  location_changed_strict PyVal.none
    (PyVal.dict [("mcc", 310), ("mnc", 410), ("lac", 7), ("cellId", 99)])
    (by decide) (Or.inl rfl)

/-- Claim C9: `begin_loop` schedules the first invocation after a
one-second initial delay; every invocation unconditionally re-schedules
the next one exactly `LOCATION_REQUEST_PERIOD_SECONDS = 3600` seconds
later; under instantaneous tick bodies the n-th invocation therefore
starts at `1 + 3600·n`, for every n — there is no termination
condition. -/
theorem scheduling_contract :
    begin_loop_initialDelaySeconds = 1 ∧
    LOCATION_REQUEST_PERIOD_SECONDS = 3600 ∧
    (∀ fetch orig, (get_location_and_make_noise fetch orig).nextDelaySeconds
      = LOCATION_REQUEST_PERIOD_SECONDS) ∧
    (∀ n, tickStartTime (n + 1) = tickStartTime n + LOCATION_REQUEST_PERIOD_SECONDS) ∧
    (∀ n, tickStartTime n = 1 + 3600 * n) := by
  refine ⟨rfl, rfl, fun fetch orig => rfl, fun n => rfl, fun n => ?_⟩
  induction n with
  | zero => rfl
  | succ k ih =>
    show tickStartTime k + LOCATION_REQUEST_PERIOD_SECONDS = 1 + 3600 * (k + 1)
    rw [ih]
    simp [LOCATION_REQUEST_PERIOD_SECONDS]
    ring

/-- Witness for `location_changed_iff_fields_differ`: two records differing
only in `cellId` yield true. -/
theorem location_changed_iff_fields_differ_witness :
    (location_changed (PyVal.dict [("mcc", 310), ("mnc", 410), ("lac", 7), ("cellId", 99)])
      (PyVal.dict [("mcc", 310), ("mnc", 410), ("lac", 7), ("cellId", 100)])).snd
      = Except.ok true :=
  (location_changed_iff_fields_differ
      (PyVal.dict [("mcc", 310), ("mnc", 410), ("lac", 7), ("cellId", 99)])
      (PyVal.dict [("mcc", 310), ("mnc", 410), ("lac", 7), ("cellId", 100)])
      310 410 7 99 310 410 7 100
      (by decide) rfl rfl rfl rfl rfl rfl rfl rfl).1.mpr (by decide)
